import Mathlib

/-!
Verification of the client-side data-synchronization and relay-control facade
of the IoT-ESP mobile application (`src/services/api.ts`, `src/utils/auth.ts`).

The network is modelled explicitly: every API function takes, besides its
source-level arguments, an environment value describing how the backend and
the transport behave during that call (a `FetchOutcome`), and returns both the
list of HTTP requests it issued (where a claim is about issued requests) and
its result.  A thrown JavaScript error that escapes to the caller is an
`Except.error`; functions whose source swallows all errors return plain
result records, mirroring the fact that they never throw.

Numbers are modelled as rationals (JS numbers in the ranges the code checks),
JSON field absence as `Option`, and JS truthiness tests explicitly.
-/

namespace IoTESP

/-- Outcome of one `fetch` call as observed by the client: either the promise
rejects (transport failure or timeout abort), or a response arrives carrying
an HTTP status code and a body whose JSON parse may itself fail
(`response.json()` rejecting is `Except.error ()`). -/
inductive FetchOutcome (β : Type) where
  | throw : FetchOutcome β
  | ok (status : Nat) (body : Except Unit β) : FetchOutcome β

/-- `Response.ok` in the fetch API: HTTP status in the 2xx range. -/
def statusOk (status : Nat) : Bool :=
  decide (200 ≤ status) && decide (status ≤ 299)

/-- A sensor reading as delivered inside a backend history payload; the
`distance` field is optional there (`distance?: number` in the map callback of
`fetchHistoryData`). -/
structure SensorReadingIn where
  temperature : ℚ
  humidity : ℚ
  soilMoisture : ℚ
  distance : Option ℚ
  timestamp : String
deriving DecidableEq

/-- The normalized reading shape (`SensorData` in `api.ts`): all four sensor
fields present. -/
structure SensorData where
  temperature : ℚ
  humidity : ℚ
  soilMoisture : ℚ
  distance : ℚ
  timestamp : String
deriving DecidableEq

/-- JS `x || 0` on an optional number: `undefined` and `0` are the falsy
numeric cases, so the result is `0` exactly when the field is absent or `0`. -/
def jsNumOrZero (x : Option ℚ) : ℚ :=
  match x with
  | none => 0
  | some d => if d = 0 then 0 else d

/-- The map callback of `fetchHistoryData`: copy the reading fieldwise and
normalize a missing `distance` to `0` via `reading.distance || 0`. -/
def normalizeReading (reading : SensorReadingIn) : SensorData :=
  { temperature := reading.temperature
    humidity := reading.humidity
    soilMoisture := reading.soilMoisture
    distance := jsNumOrZero reading.distance
    timestamp := reading.timestamp }

/-- Parsed JSON body of a history response.  `success` may be absent or
non-boolean-falsy and `data` may be absent or not an array; the code guards
with `!data.success || !Array.isArray(data.data)`, so `success` is truthy
exactly when it is `some true` and `data` is an array exactly when `some`. -/
structure HistoryBody where
  success : Option Bool
  data : Option (List SensorReadingIn)
deriving DecidableEq

/-- Result record of `fetchHistoryData` (`SensorHistoryResponse`). -/
structure SensorHistoryResponse where
  success : Bool
  data : List SensorData
deriving DecidableEq

/-- `fetchHistoryData(deviceId, limit)` from `api.ts`.  An empty device id
throws inside the `try` and is caught below; a 404 status returns empty
history with `success:true` before the body is read; any other non-2xx
status, a JSON parse failure, or a shape failure all land in the `catch`,
which returns `success:false` with an empty list.  The function never throws
to its caller.  `limit` only feeds the query string of the request URL. -/
def fetchHistoryData (deviceId : String) (limit : Nat)
    (env : FetchOutcome HistoryBody) : SensorHistoryResponse :=
  if deviceId = "" then ⟨false, []⟩
  else
    match env with
    | .throw => ⟨false, []⟩
    | .ok status body =>
      if status = 404 then ⟨true, []⟩
      else if !statusOk status then ⟨false, []⟩
      else
        match body with
        | .error _ => ⟨false, []⟩
        | .ok b =>
          if b.success = some true then
            match b.data with
            | some readings => ⟨true, readings.map normalizeReading⟩
            | none => ⟨false, []⟩
          else ⟨false, []⟩

/-- Environments in which `fetchHistoryData` lands in its `catch` block:
transport failure, a non-404 non-2xx status, a JSON parse failure, or a body
failing the `!data.success || !Array.isArray(data.data)` shape guard. -/
def historyEnvFails (env : FetchOutcome HistoryBody) : Bool :=
  match env with
  | .throw => true
  | .ok status body =>
    if status = 404 then false
    else if !statusOk status then true
    else
      match body with
      | .error _ => true
      | .ok b => !(decide (b.success = some true) && b.data.isSome)

theorem fetchHistoryData_shape (deviceId : String) (limit : Nat)
    (env : FetchOutcome HistoryBody) :
    fetchHistoryData deviceId limit env = ⟨false, []⟩
    ∨ fetchHistoryData deviceId limit env = ⟨true, []⟩
    ∨ ∃ readings, fetchHistoryData deviceId limit env
        = ⟨true, List.map normalizeReading readings⟩ := by
  unfold fetchHistoryData
  repeat' first
    | (left; rfl)
    | (right; left; rfl)
    | (right; right; exact ⟨_, rfl⟩)
    | split

theorem fetchHistoryData_nonempty_success (deviceId : String) (limit : Nat)
    (env : FetchOutcome HistoryBody) (r : SensorData) (rest : List SensorData)
    (h : (fetchHistoryData deviceId limit env).data = r :: rest) :
    (fetchHistoryData deviceId limit env).success = true := by
  rcases fetchHistoryData_shape deviceId limit env with hs | hs | ⟨readings, hs⟩ <;>
    rw [hs] at h ⊢ <;> simp_all

/-- Parsed JSON body of a latest-reading response: `success` and `data` may be
absent, guarded in the code by `!data.success || !data.data`. -/
structure LatestBody where
  success : Option Bool
  data : Option SensorData

/-- Result record of `fetchLatestData` (`SensorResponse`). -/
structure SensorResponse where
  success : Bool
  data : SensorData
deriving DecidableEq

/-- Environment of one `fetchLatestData` call: the outcome of the primary
latest-reading fetch, the outcome of the (at most one) history fallback fetch
issued as `fetchHistoryData(deviceId, 1)`, and the value
`new Date().toISOString()` would produce. -/
structure LatestEnv where
  latest : FetchOutcome LatestBody
  hist : FetchOutcome HistoryBody
  now : String

/-- The zero-valued reading `fetchLatestData` synthesizes, stamped with the
current time. -/
def zeroReading (now : String) : SensorData :=
  { temperature := 0, humidity := 0, soilMoisture := 0, distance := 0
    timestamp := now }

/-- The `try` block of `fetchLatestData` from `api.ts`.  `.error ()` means a
JavaScript error was thrown (empty device id, transport failure, non-404
non-2xx status, JSON parse failure, or shape failure) and control passes to
the `catch` block.  On a 404 the code falls back to
`fetchHistoryData(deviceId, 1)` and returns, with `success:true`, either its
most recent entry or a synthetic zero reading stamped now. -/
def fetchLatestPrimary (deviceId : String) (env : LatestEnv) :
    Except Unit SensorResponse :=
  if deviceId = "" then .error ()
  else
    match env.latest with
    | .throw => .error ()
    | .ok status body =>
      if status = 404 then
        match fetchHistoryData deviceId 1 env.hist with
        | ⟨true, mostRecent :: _⟩ => .ok ⟨true, mostRecent⟩
        | _ => .ok ⟨true, zeroReading env.now⟩
      else if !statusOk status then .error ()
      else
        match body with
        | .error _ => .error ()
        | .ok b =>
          if b.success = some true then
            match b.data with
            | some d => .ok ⟨true, d⟩
            | none => .error ()
          else .error ()

/-- `fetchLatestData(deviceId)` from `api.ts`: the `catch` block retries the
history fallback `fetchHistoryData(deviceId, 1)` (which itself never throws)
and, when that yields nothing, returns `success:false` with a zero reading
stamped now.  The function is total: it never throws to its caller. -/
def fetchLatestData (deviceId : String) (env : LatestEnv) : SensorResponse :=
  match fetchLatestPrimary deviceId env with
  | .ok r => r
  | .error _ =>
    match fetchHistoryData deviceId 1 env.hist with
    | ⟨true, mostRecent :: _⟩ => ⟨true, mostRecent⟩
    | _ => ⟨false, zeroReading env.now⟩

/-- C7: for every device id and limit, `getHistory` on an HTTP 404 returns
`success:true` with an empty list rather than an error; on the success path
the returned readings are the payload readings with an absent `distance`
normalized to `0`; and on any other transport or shape error it returns
`success:false` with an empty list, never throwing. -/
theorem fetchHistoryData_contract (deviceId : String) (limit : Nat)
    (env : FetchOutcome HistoryBody) (hd : deviceId ≠ "") :
    (∀ body, env = .ok 404 body → fetchHistoryData deviceId limit env = ⟨true, []⟩)
    ∧ (∀ status b readings, env = .ok status (.ok b) → status ≠ 404 →
        statusOk status = true → b.success = some true → b.data = some readings →
        fetchHistoryData deviceId limit env = ⟨true, readings.map normalizeReading⟩)
    ∧ (∀ rin : SensorReadingIn, rin.distance = none →
        (normalizeReading rin).distance = 0)
    ∧ (historyEnvFails env = true → fetchHistoryData deviceId limit env = ⟨false, []⟩) := by
  refine ⟨?_, ?_, ?_, ?_⟩
  · intro body h
    subst h
    simp [fetchHistoryData, hd]
  · intro status b readings h h404 hok hsucc hdata
    subst h
    simp [fetchHistoryData, hd, h404, hok, hsucc, hdata]
  · intro rin h
    simp [normalizeReading, jsNumOrZero, h]
  · intro hfail
    cases env with
    | throw => simp [fetchHistoryData, hd]
    | ok status body =>
      unfold historyEnvFails at hfail
      by_cases h404 : status = 404
      · simp [h404] at hfail
      · by_cases hok : statusOk status = true
        · cases body with
          | error e => simp [fetchHistoryData, hd, h404, hok]
          | ok b =>
            simp [h404, hok] at hfail
            by_cases hs : b.success = some true
            · have hnone : b.data = none := by
                cases hb : b.data <;> simp_all
              simp [fetchHistoryData, hd, h404, hok, hs, hnone]
            · simp [fetchHistoryData, hd, h404, hok, hs]
        · simp only [Bool.not_eq_true] at hok
          simp [fetchHistoryData, hd, h404, hok]

theorem fetchHistoryData_contract_witness :
    fetchHistoryData "dev1" 5 (.ok 404 (.error ())) = ⟨true, []⟩ :=
  (fetchHistoryData_contract "dev1" 5 (.ok 404 (.error ())) (by decide)).1
    (.error ()) rfl

/-- C1: when the primary latest-reading fetch returns HTTP 404, `getLatest`
falls back to `getHistory(deviceId, 1)`: if the fallback yields an empty
list the result is `success:true` with a synthetic reading whose four sensor
fields are all `0` and whose timestamp is the current time; if it yields at
least one entry the result is `success:true` with that most recent entry. -/
theorem fetchLatestData_404_fallback (deviceId : String) (env : LatestEnv)
    (hd : deviceId ≠ "") (body : Except Unit LatestBody)
    (h404 : env.latest = .ok 404 body) :
    ((fetchHistoryData deviceId 1 env.hist).data = [] →
      fetchLatestData deviceId env = ⟨true, zeroReading env.now⟩)
    ∧ (∀ r rest, (fetchHistoryData deviceId 1 env.hist).data = r :: rest →
      fetchLatestData deviceId env = ⟨true, r⟩) := by
  constructor
  · intro hempty
    cases hh : fetchHistoryData deviceId 1 env.hist with
    | mk s dta =>
      rw [hh] at hempty
      simp only at hempty
      subst hempty
      have hp : fetchLatestPrimary deviceId env = .ok ⟨true, zeroReading env.now⟩ := by
        unfold fetchLatestPrimary
        rw [h404, hh]
        cases s <;> simp [hd]
      simp [fetchLatestData, hp]
  · intro r rest hcons
    have hsucc := fetchHistoryData_nonempty_success deviceId 1 env.hist r rest hcons
    cases hh : fetchHistoryData deviceId 1 env.hist with
    | mk s dta =>
      rw [hh] at hcons hsucc
      simp only at hcons hsucc
      subst hcons
      subst hsucc
      have hp : fetchLatestPrimary deviceId env = .ok ⟨true, r⟩ := by
        unfold fetchLatestPrimary
        rw [h404, hh]
        simp [hd]
      simp [fetchLatestData, hp]

theorem fetchLatestData_404_fallback_witness :
    fetchLatestData "dev1" ⟨.ok 404 (.error ()), .throw, "2026-01-01T00:00:00Z"⟩
      = ⟨true, zeroReading "2026-01-01T00:00:00Z"⟩ :=
  (fetchLatestData_404_fallback "dev1"
      ⟨.ok 404 (.error ()), .throw, "2026-01-01T00:00:00Z"⟩
      (by decide) (.error ()) rfl).1 rfl

/-- C2: `getLatest` never throws to its caller, not even for an empty device
id (the empty-id guard throws inside the `try` and is caught).  Whenever the
`try` block throws (transport or parse error among the cases), the history
fallback `getHistory(deviceId, 1)` is attempted once more: if it yields an
entry the result is `success:true` with that entry, otherwise the result is
`success:false` with a zero-valued reading stamped with the current time. -/
theorem fetchLatestData_error_fallback (deviceId : String) (env : LatestEnv)
    (herr : fetchLatestPrimary deviceId env = .error ()) :
    (fetchLatestPrimary "" env = .error ())
    ∧ ((fetchHistoryData deviceId 1 env.hist).data = [] →
      fetchLatestData deviceId env = ⟨false, zeroReading env.now⟩)
    ∧ (∀ r rest, (fetchHistoryData deviceId 1 env.hist).data = r :: rest →
      fetchLatestData deviceId env = ⟨true, r⟩) := by
  refine ⟨by simp [fetchLatestPrimary], ?_, ?_⟩
  · intro hempty
    cases hh : fetchHistoryData deviceId 1 env.hist with
    | mk s dta =>
      rw [hh] at hempty
      simp only at hempty
      subst hempty
      unfold fetchLatestData
      rw [herr, hh]
      cases s <;> simp
  · intro r rest hcons
    have hsucc := fetchHistoryData_nonempty_success deviceId 1 env.hist r rest hcons
    cases hh : fetchHistoryData deviceId 1 env.hist with
    | mk s dta =>
      rw [hh] at hcons hsucc
      simp only at hcons hsucc
      subst hcons
      subst hsucc
      unfold fetchLatestData
      rw [herr, hh]

theorem fetchLatestData_error_fallback_witness :
    fetchLatestData "dev1" ⟨.throw, .throw, "2026-01-01T00:00:00Z"⟩
      = ⟨false, zeroReading "2026-01-01T00:00:00Z"⟩ :=
  (fetchLatestData_error_fallback "dev1" ⟨.throw, .throw, "2026-01-01T00:00:00Z"⟩
      (by simp [fetchLatestPrimary])).2.1 rfl

/-- Errors thrown by the write paths of `api.ts`: client-side range
validation, HTTP non-2xx statuses, JSON parse rejections, shape failures
(`Invalid response format`), transport failures, and the missing-token error
of the relay endpoints. -/
inductive ApiError where
  | validation (message : String)
  | httpStatus (status : Nat)
  | parse
  | invalidFormat
  | transport
  | noAuthToken
deriving DecidableEq

/-- The HTTP POST `sendSensorData` issues: URL path, the `x-auth-token`
header value, and the JSON body `{deviceId, temperature, humidity,
soilMoisture}`. -/
structure SensorPost where
  path : String
  xAuthToken : String
  deviceId : String
  temperature : ℚ
  humidity : ℚ
  soilMoisture : ℚ
deriving DecidableEq

/-- The `data` object of a successful `POST /data` response. -/
structure SendData where
  deviceId : String
  temperature : ℚ
  humidity : ℚ
  soilMoisture : ℚ
  timestamp : String
deriving DecidableEq

/-- Parsed JSON body of a `POST /data` response, guarded by
`!data.success || !data.data`. -/
structure SendBody where
  success : Option Bool
  data : Option SendData

/-- Result record of `sendSensorData` (`SensorDataResponse`). -/
structure SensorDataResponse where
  success : Bool
  data : SendData
deriving DecidableEq

/-- The `try` block of `sendSensorData`: issue the single POST described by
`req` and either return the confirmation or rethrow the failure (HTTP non-2xx,
JSON parse rejection, shape failure, transport failure) to the caller. -/
def sendNetwork (req : SensorPost) (env : FetchOutcome SendBody) :
    List SensorPost × Except ApiError SensorDataResponse :=
  match env with
  | .throw => ([req], .error .transport)
  | .ok status body =>
    if !statusOk status then ([req], .error (.httpStatus status))
    else
      match body with
      | .error _ => ([req], .error .parse)
      | .ok b =>
        if b.success = some true then
          match b.data with
          | some d => ([req], .ok ⟨true, d⟩)
          | none => ([req], .error .invalidFormat)
        else ([req], .error .invalidFormat)

/-- `sendSensorData(deviceId, temperature, humidity, soilMoisture, authToken)`
from `api.ts`.  The three range validations run before the `try` block, so a
`ValidationError` is thrown before any network activity; in range, exactly
one POST to `/data` is issued and every error thereafter is rethrown by the
`catch` to the caller.  The first component of the result is the list of
HTTP requests issued during the call. -/
def sendSensorData (deviceId : String) (temperature humidity soilMoisture : ℚ)
    (authToken : String) (env : FetchOutcome SendBody) :
    List SensorPost × Except ApiError SensorDataResponse :=
  if temperature < -40 || temperature > 80 then
    ([], .error (.validation "Temperature must be between -40°C and 80°C"))
  else if humidity < 0 || humidity > 100 then
    ([], .error (.validation "Humidity must be between 0% and 100%"))
  else if soilMoisture < 0 || soilMoisture > 100 then
    ([], .error (.validation "Soil moisture must be between 0% and 100%"))
  else
    sendNetwork ⟨"/data", authToken, deviceId, temperature, humidity, soilMoisture⟩ env

/-- Recognizer for a thrown `ValidationError`. -/
def isValidationError : Except ApiError SensorDataResponse → Bool
  | .error (.validation _) => true
  | _ => false

/-- Environments in which the network part of `sendSensorData` fails:
transport failure, non-2xx status, parse failure, or the
`!data.success || !data.data` shape guard. -/
def sendEnvFails (env : FetchOutcome SendBody) : Bool :=
  match env with
  | .throw => true
  | .ok status body =>
    if !statusOk status then true
    else
      match body with
      | .error _ => true
      | .ok b => !(decide (b.success = some true) && b.data.isSome)

theorem sendNetwork_trace (req : SensorPost) (env : FetchOutcome SendBody) :
    (sendNetwork req env).1 = [req] := by
  unfold sendNetwork
  repeat' first | rfl | split

theorem sendNetwork_not_validation (req : SensorPost) (env : FetchOutcome SendBody) :
    isValidationError (sendNetwork req env).2 = false := by
  unfold sendNetwork
  repeat' first | rfl | split

theorem sendNetwork_error_iff (req : SensorPost) (env : FetchOutcome SendBody) :
    sendEnvFails env = true ↔ ∃ e, (sendNetwork req env).2 = .error e := by
  unfold sendNetwork sendEnvFails
  cases env with
  | throw => simp
  | ok status body =>
    by_cases hok : statusOk status <;> simp only [hok, Bool.not_true, Bool.not_false]
    · cases body with
      | error e => simp
      | ok b =>
        by_cases hs : b.success = some true
        · cases hb : b.data with
          | some d => simp [hs, hb]
          | none => simp [hs, hb]
        · simp [hs]
    · simp

theorem sendSensorData_inRange (deviceId : String)
    (temperature humidity soilMoisture : ℚ) (authToken : String)
    (env : FetchOutcome SendBody)
    (h1 : -40 ≤ temperature) (h2 : temperature ≤ 80)
    (h3 : 0 ≤ humidity) (h4 : humidity ≤ 100)
    (h5 : 0 ≤ soilMoisture) (h6 : soilMoisture ≤ 100) :
    sendSensorData deviceId temperature humidity soilMoisture authToken env
      = sendNetwork ⟨"/data", authToken, deviceId, temperature, humidity, soilMoisture⟩ env := by
  have hc1 : (temperature < -40 || temperature > 80) = false := by
    simp only [Bool.or_eq_false_iff, decide_eq_false_iff_not, not_lt]
    exact ⟨h1, h2⟩
  have hc2 : (humidity < 0 || humidity > 100) = false := by
    simp only [Bool.or_eq_false_iff, decide_eq_false_iff_not, not_lt]
    exact ⟨h3, h4⟩
  have hc3 : (soilMoisture < 0 || soilMoisture > 100) = false := by
    simp only [Bool.or_eq_false_iff, decide_eq_false_iff_not, not_lt]
    exact ⟨h5, h6⟩
  unfold sendSensorData
  rw [hc1, hc2, hc3]
  rfl

/-- C3: `sendReading` fails with a `ValidationError` and issues no HTTP
request if and only if one of the three inputs is out of range; with all
inputs in range (boundary values included) a request is issued and no
`ValidationError` is raised. -/
theorem sendSensorData_validation (deviceId : String)
    (temperature humidity soilMoisture : ℚ) (authToken : String)
    (env : FetchOutcome SendBody) :
    ((temperature < -40 ∨ 80 < temperature ∨ humidity < 0 ∨ 100 < humidity
        ∨ soilMoisture < 0 ∨ 100 < soilMoisture)
      ↔ ((sendSensorData deviceId temperature humidity soilMoisture authToken env).1 = []
        ∧ isValidationError
            (sendSensorData deviceId temperature humidity soilMoisture authToken env).2
          = true))
    ∧ (¬ (temperature < -40 ∨ 80 < temperature ∨ humidity < 0 ∨ 100 < humidity
        ∨ soilMoisture < 0 ∨ 100 < soilMoisture) →
      (sendSensorData deviceId temperature humidity soilMoisture authToken env).1
        = [⟨"/data", authToken, deviceId, temperature, humidity, soilMoisture⟩]
      ∧ isValidationError
          (sendSensorData deviceId temperature humidity soilMoisture authToken env).2
        = false) := by
  by_cases hout : temperature < -40 ∨ 80 < temperature ∨ humidity < 0 ∨ 100 < humidity
      ∨ soilMoisture < 0 ∨ 100 < soilMoisture
  · refine ⟨⟨fun _ => ?_, fun _ => hout⟩, fun h => absurd hout h⟩
    unfold sendSensorData
    split
    · exact ⟨rfl, rfl⟩
    · split
      · exact ⟨rfl, rfl⟩
      · split
        · exact ⟨rfl, rfl⟩
        · exfalso
          simp only [Bool.or_eq_false_iff, decide_eq_false_iff_not, not_lt,
            Bool.not_eq_true] at *
          rcases hout with h | h | h | h | h | h <;> simp_all <;> linarith
  · push_neg at hout
    obtain ⟨h1, h2, h3, h4, h5, h6⟩ := hout
    have heq := sendSensorData_inRange deviceId temperature humidity soilMoisture
      authToken env h1 h2 h3 h4 h5 h6
    refine ⟨⟨fun hout => ?_, fun ⟨hnil, _⟩ => ?_⟩, fun _ => ?_⟩
    · exfalso
      rcases hout with h | h | h | h | h | h <;> linarith
    · exfalso
      rw [heq, sendNetwork_trace] at hnil
      simp at hnil
    · rw [heq]
      exact ⟨sendNetwork_trace _ _, sendNetwork_not_validation _ _⟩

theorem sendSensorData_validation_witness :
    (sendSensorData "d1" 85 50 50 "tok" .throw).1 = []
    ∧ isValidationError (sendSensorData "d1" 85 50 50 "tok" .throw).2 = true :=
  (sendSensorData_validation "d1" 85 50 50 "tok" .throw).1.mp (by norm_num)

/-- C4: for every in-range triple, `sendReading` issues exactly one POST to
`/data` carrying exactly the supplied device id and sensor values in its body
and the supplied token in the `x-auth-token` header; and the result is a
thrown error exactly when the transport fails, the status is non-2xx, or the
body is unparseable or non-success — no fallback result is produced. -/
theorem sendSensorData_post_exact (deviceId : String)
    (temperature humidity soilMoisture : ℚ) (authToken : String)
    (env : FetchOutcome SendBody)
    (h1 : -40 ≤ temperature) (h2 : temperature ≤ 80)
    (h3 : 0 ≤ humidity) (h4 : humidity ≤ 100)
    (h5 : 0 ≤ soilMoisture) (h6 : soilMoisture ≤ 100) :
    (sendSensorData deviceId temperature humidity soilMoisture authToken env).1
      = [⟨"/data", authToken, deviceId, temperature, humidity, soilMoisture⟩]
    ∧ (sendEnvFails env = true ↔
      ∃ e, (sendSensorData deviceId temperature humidity soilMoisture authToken env).2
        = .error e) := by
  rw [sendSensorData_inRange deviceId temperature humidity soilMoisture authToken env
    h1 h2 h3 h4 h5 h6]
  exact ⟨sendNetwork_trace _ _, sendNetwork_error_iff _ _⟩

theorem sendSensorData_post_exact_witness :
    (sendSensorData "d1" 25 50 50 "tok" .throw).1 = [⟨"/data", "tok", "d1", 25, 50, 50⟩]
    ∧ (sendEnvFails (FetchOutcome.throw : FetchOutcome SendBody) = true ↔
      ∃ e, (sendSensorData "d1" 25 50 50 "tok" .throw).2 = .error e) :=
  sendSensorData_post_exact "d1" 25 50 50 "tok" .throw (by norm_num) (by norm_num)
    (by norm_num) (by norm_num) (by norm_num) (by norm_num)

/-- The two relay states of the source union type. -/
inductive RelayState where
  | on
  | off
deriving DecidableEq

/-- The four-relay map of a relay status or control response; the code only
tests presence of the `relays` object, never its contents, so the field
values are kept as raw strings. -/
structure Relays where
  relay1 : String
  relay2 : String
  relay3 : String
  relay4 : String
deriving DecidableEq

/-- Parsed JSON body of a relay status or control response, guarded by
`!data.success || !data.deviceId || !data.relays`: each field may be absent,
and a present `deviceId` is still falsy when it is the empty string. -/
structure RelayStatusBody where
  success : Option Bool
  deviceId : Option String
  relays : Option Relays
deriving DecidableEq

/-- JS truthiness of an optional string: absent and empty are falsy. -/
def truthyStr (x : Option String) : Bool :=
  match x with
  | some s => decide (s ≠ "")
  | none => false

/-- The body of the `POST /relay/control` request. -/
structure RelayControlInput where
  deviceId : String
  relayNumber : ℚ
  state : RelayState
deriving DecidableEq

/-- An HTTP request issued by the relay endpoints: method, path, the
`x-auth-token` header value, and for the control POST its JSON body. -/
structure RelayRequest where
  method : String
  path : String
  xAuthToken : String
  body : Option RelayControlInput
deriving DecidableEq

/-- Shared tail of `getRelayStatus` and `controlRelay` after the token check:
issue `req`, then validate HTTP status and body shape, returning the parsed
body unchanged on success and rethrowing every failure. -/
def relayExchange (req : RelayRequest) (env : FetchOutcome RelayStatusBody) :
    List RelayRequest × Except ApiError RelayStatusBody :=
  match env with
  | .throw => ([req], .error .transport)
  | .ok status body =>
    if !statusOk status then ([req], .error (.httpStatus status))
    else
      match body with
      | .error _ => ([req], .error .parse)
      | .ok data =>
        if decide (data.success = some true) && truthyStr data.deviceId
            && data.relays.isSome then
          ([req], .ok data)
        else ([req], .error .invalidFormat)

/-- `getRelayStatus(deviceId)` from `api.ts`.  The token is resolved through
the Credential Store (`getAuthToken`); `storedToken` is the value that lookup
produced.  The guard is `if (!authToken)` on a `string | null` value, so both
a `null` lookup and a JS-falsy empty-string token throw before any request is
made; otherwise the function issues one GET to `/relay/status/:deviceId` with
the token in the `x-auth-token` header and returns the parsed body unchanged
when it passes the shape guard. -/
def getRelayStatus (deviceId : String) (storedToken : Option String)
    (env : FetchOutcome RelayStatusBody) :
    List RelayRequest × Except ApiError RelayStatusBody :=
  match storedToken with
  | none => ([], .error .noAuthToken)
  | some authToken =>
    if authToken = "" then ([], .error .noAuthToken)
    else relayExchange ⟨"GET", "/relay/status/" ++ deviceId, authToken, none⟩ env

/-- `controlRelay(deviceId, relayNumber, state)` from `api.ts`.  Identical
auth contract to `getRelayStatus` (`if (!authToken)`, with the empty string
falsy) and identical shape contract; the POST body carries the supplied
`deviceId`, `relayNumber` and `state` unvalidated. -/
def controlRelay (deviceId : String) (relayNumber : ℚ) (state : RelayState)
    (storedToken : Option String) (env : FetchOutcome RelayStatusBody) :
    List RelayRequest × Except ApiError RelayStatusBody :=
  match storedToken with
  | none => ([], .error .noAuthToken)
  | some authToken =>
    if authToken = "" then ([], .error .noAuthToken)
    else relayExchange
      ⟨"POST", "/relay/control", authToken, some ⟨deviceId, relayNumber, state⟩⟩ env

/-- C5: with no token in the Credential Store and none supplied, both
`getStatus` and `setRelay` fail with an `AuthError` and issue no HTTP
request. -/
theorem relay_noToken_authError (deviceId : String) (relayNumber : ℚ)
    (state : RelayState) (env1 env2 : FetchOutcome RelayStatusBody) :
    getRelayStatus deviceId none env1 = ([], .error .noAuthToken)
    ∧ controlRelay deviceId relayNumber state none env2 = ([], .error .noAuthToken) :=
  ⟨rfl, rfl⟩

theorem relayExchange_trace (req : RelayRequest) (env : FetchOutcome RelayStatusBody) :
    (relayExchange req env).1 = [req] := by
  unfold relayExchange
  repeat' first | rfl | split

/-- C6: for every well-formed relay-status body (`success:true`, a non-empty
`deviceId`, a `relays` map) delivered with a 2xx status, `getStatus` returns
exactly that parsed body, unchanged; if any of `success`, `deviceId` or
`relays` is missing from the body, it fails with a `RequestError`
(`Invalid response format from server`) instead of returning a value. -/
theorem getRelayStatus_passthrough (deviceId authToken : String) (status : Nat)
    (data : RelayStatusBody) (hok : statusOk status = true) (htok : authToken ≠ "") :
    (∀ d, data.success = some true → data.deviceId = some d → d ≠ "" →
      data.relays.isSome = true →
      getRelayStatus deviceId (some authToken) (.ok status (.ok data))
        = ([⟨"GET", "/relay/status/" ++ deviceId, authToken, none⟩], .ok data))
    ∧ (data.success = none ∨ data.deviceId = none ∨ data.relays = none →
      (getRelayStatus deviceId (some authToken) (.ok status (.ok data))).2
        = .error .invalidFormat) := by
  constructor
  · intro d hs hd hne hr
    unfold getRelayStatus relayExchange
    simp [htok, hok, hs, hd, hne, hr, truthyStr]
  · intro hmiss
    unfold getRelayStatus relayExchange
    have hguard : (decide (data.success = some true) && truthyStr data.deviceId
        && data.relays.isSome) = false := by
      rcases hmiss with h | h | h <;> simp [h, truthyStr]
    simp [htok, hok, hguard]

theorem getRelayStatus_passthrough_witness :
    getRelayStatus "D1" (some "tok123")
        (.ok 200 (.ok ⟨some true, some "D1", some ⟨"on", "off", "off", "off"⟩⟩))
      = ([⟨"GET", "/relay/status/D1", "tok123", none⟩],
        .ok ⟨some true, some "D1", some ⟨"on", "off", "off", "off"⟩⟩) :=
  (getRelayStatus_passthrough "D1" "tok123" 200
      ⟨some true, some "D1", some ⟨"on", "off", "off", "off"⟩⟩ (by decide) (by decide)).1
    "D1" rfl rfl (by decide) rfl

/-- C8 as stated is false: `controlRelay` performs no client-side validation
of `relayNumber`.  At the concrete call `controlRelay("dev1", 5, on)` with a
stored token, the relay-control POST carrying `relayNumber = 5` IS issued. -/
theorem controlRelay_invalid_relayNumber_sent :
    ¬ (∀ req ∈ (controlRelay "dev1" 5 .on (some "tok123") .throw).1,
        ∀ b, req.body = some b → b.relayNumber ≠ 5) := by
  intro h
  have hmem : (⟨"POST", "/relay/control", "tok123", some ⟨"dev1", 5, .on⟩⟩ : RelayRequest)
      ∈ (controlRelay "dev1" 5 .on (some "tok123") .throw).1 := by
    have htr : (controlRelay "dev1" 5 .on (some "tok123") .throw).1
        = [⟨"POST", "/relay/control", "tok123", some ⟨"dev1", 5, .on⟩⟩] := by
      simp [controlRelay, relayExchange]
    rw [htr]
    exact List.mem_singleton.mpr rfl
  exact h _ hmem ⟨"dev1", 5, .on⟩ rfl rfl

/-- C8 amended: `setRelay` accepts every `relayNumber` without client-side
validation; for every call with a resolvable token (a stored token that is
non-null and non-empty) it issues exactly one relay-control POST carrying the
supplied `deviceId`, `relayNumber` and `state`, whether or not the number
lies in `{1,2,3,4}`. -/
theorem controlRelay_sends_any_relayNumber (deviceId : String) (relayNumber : ℚ)
    (state : RelayState) (authToken : String) (env : FetchOutcome RelayStatusBody)
    (htok : authToken ≠ "") :
    (controlRelay deviceId relayNumber state (some authToken) env).1
      = [⟨"POST", "/relay/control", authToken, some ⟨deviceId, relayNumber, state⟩⟩] := by
  simp only [controlRelay, htok, if_neg, if_false]
  exact relayExchange_trace _ env

theorem controlRelay_sends_any_relayNumber_witness :
    (controlRelay "dev1" 5 .on (some "tok123") .throw).1
      = [⟨"POST", "/relay/control", "tok123", some ⟨"dev1", 5, .on⟩⟩] :=
  controlRelay_sends_any_relayNumber "dev1" 5 .on "tok123" .throw (by decide)

/-- `AsyncStorage` modelled as an association list from keys to values;
`setItem` overwrites any previous binding of the key. -/
def Storage : Type := List (String × String)

/-- `AsyncStorage.setItem`. -/
def setItem (s : Storage) (key value : String) : Storage :=
  (key, value) :: List.filter (fun kv => kv.1 != key) s

/-- `AsyncStorage.getItem`: `null` when the key is unbound. -/
def getItem (s : Storage) (key : String) : Option String :=
  (List.find? (fun kv => kv.1 == key) s).map (fun kv => kv.2)

/-- The `AUTH_TOKEN_KEY` constant of `src/utils/auth.ts`. -/
def AUTH_TOKEN_KEY : String := "@auth_token"

/-- The composite per-device key built by the template literal in
`src/utils/auth.ts`. -/
def authKey (deviceId : String) : String := AUTH_TOKEN_KEY ++ "_" ++ deviceId

/-- `storeAuthToken(deviceId, token)` from `src/utils/auth.ts`: on an
underlying `AsyncStorage` failure (`fails = true`) the error is logged and
swallowed, leaving the store unchanged; the function never throws. -/
def storeAuthToken (fails : Bool) (s : Storage) (deviceId token : String) : Storage :=
  if fails then s else setItem s (authKey deviceId) token

/-- `getAuthToken(deviceId)` from `src/utils/auth.ts`: on an underlying
`AsyncStorage` failure the error is logged and `null` is returned; the
function never throws. -/
def getAuthToken (fails : Bool) (s : Storage) (deviceId : String) : Option String :=
  if fails then none else getItem s (authKey deviceId)

theorem getItem_setItem_self (s : Storage) (k v : String) :
    getItem (setItem s k v) k = some v := by
  simp [getItem, setItem]

theorem find?_filter_ne (s : Storage) (k k' : String) (h : k' ≠ k) :
    List.find? (fun kv => kv.1 == k') (List.filter (fun kv => kv.1 != k) s)
      = List.find? (fun kv => kv.1 == k') s := by
  induction s with
  | nil => rfl
  | cons hd tl ih =>
    by_cases hk : hd.1 = k
    · have h2 : (k == k') = false := by
        simp only [beq_eq_false_iff_ne, ne_eq]
        exact fun hc => h hc.symm
      simp only [List.filter_cons, hk, bne_self_eq_false, Bool.false_eq_true, if_false,
        List.find?_cons, h2, ih]
    · have h1 : (hd.1 != k) = true := bne_iff_ne.mpr hk
      simp only [List.filter_cons, h1, if_true, List.find?_cons]
      cases h2 : (hd.1 == k') with
      | true => rfl
      | false => rw [ih]

theorem getItem_setItem_other (s : Storage) (k k' v : String) (h : k' ≠ k) :
    getItem (setItem s k v) k' = getItem s k' := by
  unfold getItem setItem
  rw [List.find?_cons]
  have : ((k, v).1 == k') = false := by
    simp
    exact fun hc => absurd hc.symm h
  rw [this, find?_filter_ne s k k' h]

theorem authKey_injective (d d' : String) (h : authKey d = authKey d') : d = d' := by
  unfold authKey at h
  have hdata : (AUTH_TOKEN_KEY ++ "_").data ++ d.data
      = (AUTH_TOKEN_KEY ++ "_").data ++ d'.data := congrArg String.data h
  exact String.ext (List.append_cancel_left hdata)

/-- C9: Credential Store round-trip and last-write-wins: after
`store(D, tok)`, `get(D)` returns `tok`; after a further `store(D, tok2)` it
returns `tok2`; a `store(D, tok)` leaves `get(D2)` unchanged for every other
device id `D2` (keys are namespaced per device); and store and get swallow
underlying storage failures instead of throwing — a failed store leaves the
store unchanged and a failed get returns `null`. -/
theorem authToken_roundtrip (s : Storage) (d d2 tok tok2 : String) (hne : d2 ≠ d) :
    getAuthToken false (storeAuthToken false s d tok) d = some tok
    ∧ getAuthToken false (storeAuthToken false (storeAuthToken false s d tok) d tok2) d
      = some tok2
    ∧ getAuthToken false (storeAuthToken false s d tok) d2 = getAuthToken false s d2
    ∧ storeAuthToken true s d tok = s
    ∧ getAuthToken true s d = none := by
  have hkey : authKey d2 ≠ authKey d := fun hc => hne (authKey_injective d2 d hc)
  refine ⟨?_, ?_, ?_, rfl, rfl⟩
  · simp [getAuthToken, storeAuthToken, getItem_setItem_self]
  · simp [getAuthToken, storeAuthToken, getItem_setItem_self]
  · simp only [getAuthToken, storeAuthToken, if_false, Bool.false_eq_true]
    exact getItem_setItem_other s (authKey d) (authKey d2) tok hkey

theorem authToken_roundtrip_witness :
    getAuthToken false (storeAuthToken false [] "D" "tok123") "D" = some "tok123"
    ∧ getAuthToken false
        (storeAuthToken false (storeAuthToken false [] "D" "tok123") "D" "tok456") "D"
      = some "tok456" :=
  ⟨(authToken_roundtrip [] "D" "E" "tok123" "tok456" (by decide)).1,
    (authToken_roundtrip [] "D" "E" "tok123" "tok456" (by decide)).2.1⟩

/-- A device record as it appears in the backend `/devices/count` payload,
before normalization: `_id` may be a Mongo object carrying `$oid` or a plain
string, `createdAt` may be a Mongo `$date` object or a plain string, and the
token may live under either of two field names. -/
structure RawDevice where
  idOid : Option String
  idStr : Option String
  deviceId : String
  name : String
  location : String
  createdAtDate : Option String
  createdAtStr : Option String
  lastSeen : String
  authToken : Option String
  auth_token : Option String
deriving DecidableEq

/-- The canonical `Device` shape of `api.ts`; `authToken` stays optional
because `device.authToken || device.auth_token` is `undefined` when both
fields are absent. -/
structure Device where
  _id : String
  deviceId : String
  name : String
  location : String
  createdAt : String
  authToken : Option String
deriving DecidableEq

/-- JS `a || b` for an optional string `a` and a string `b`: absent and empty
are falsy, and `b` is returned as-is otherwise. -/
def jsOrStr (a : Option String) (b : String) : String :=
  match a with
  | some s => if s = "" then b else s
  | none => b

/-- JS `a || b` when both operands are optional strings. -/
def jsOrOptStr (a b : Option String) : Option String :=
  match a with
  | some s => if s = "" then b else some s
  | none => b

/-- The map callback of `fetchDevices`: normalize the heterogeneous id, date
and token encodings into the canonical `Device` shape. -/
def transformDevice (device : RawDevice) : Device :=
  { _id := jsOrStr device.idOid (jsOrStr device.idStr device.deviceId)
    deviceId := device.deviceId
    name := device.name
    location := device.location
    createdAt := jsOrStr device.createdAtDate (jsOrStr device.createdAtStr device.lastSeen)
    authToken := jsOrOptStr device.authToken device.auth_token }

/-- Parsed JSON body of the `/devices/count` response, guarded by
`!data.success || !Array.isArray(data.devices)`. -/
structure DevicesBody where
  success : Option Bool
  devices : Option (List RawDevice)

/-- Result record of `fetchDevices` (`DevicesResponse`). -/
structure DevicesResponse where
  success : Bool
  count : Nat
  devices : List Device
deriving DecidableEq

/-- `fetchDevices()` from `api.ts`: on success the devices are normalized and
`count` is recomputed as `transformedDevices.length`; every thrown error
(transport, non-2xx status, parse failure, shape failure) is caught and
turned into `{success:false, count:0, devices:[]}`.  The function never
throws to its caller. -/
def fetchDevices (env : FetchOutcome DevicesBody) : DevicesResponse :=
  match env with
  | .throw => ⟨false, 0, []⟩
  | .ok status body =>
    if !statusOk status then ⟨false, 0, []⟩
    else
      match body with
      | .error _ => ⟨false, 0, []⟩
      | .ok b =>
        if b.success = some true then
          match b.devices with
          | some ds =>
            let transformedDevices := ds.map transformDevice
            ⟨true, transformedDevices.length, transformedDevices⟩
          | none => ⟨false, 0, []⟩
        else ⟨false, 0, []⟩

/-- Environments in which `fetchDevices` lands in its `catch` block:
transport failure, non-2xx status, parse failure, or a body failing the shape
guard. -/
def devicesEnvFails (env : FetchOutcome DevicesBody) : Bool :=
  match env with
  | .throw => true
  | .ok status body =>
    if !statusOk status then true
    else
      match body with
      | .error _ => true
      | .ok b => !(decide (b.success = some true) && b.devices.isSome)

/-- C10: `listDevices` never throws (the model is a total function); on any
transport or shape error it returns `{success:false, count:0, devices:[]}`;
and in every result, successful or not, `count` equals the length of the
returned `devices` list. -/
theorem fetchDevices_contract (env : FetchOutcome DevicesBody) :
    (fetchDevices env).count = (fetchDevices env).devices.length
    ∧ (devicesEnvFails env = true → fetchDevices env = ⟨false, 0, []⟩) := by
  constructor
  · unfold fetchDevices
    repeat' first | rfl | split
  · intro hfail
    unfold devicesEnvFails at hfail
    unfold fetchDevices
    cases env with
    | throw => rfl
    | ok status body =>
      by_cases hok : statusOk status
      · simp only [hok, Bool.not_true, Bool.false_eq_true, if_false] at hfail ⊢
        cases body with
        | error e => rfl
        | ok b =>
          by_cases hs : b.success = some true
          · have hnone : b.devices = none := by
              cases hb : b.devices <;> simp_all
            simp [hs, hnone]
          · simp [hs]
      · simp only [Bool.not_eq_true] at hok
        simp [hok]

theorem fetchDevices_contract_witness :
    fetchDevices .throw = ⟨false, 0, []⟩ :=
  (fetchDevices_contract .throw).2 rfl

end IoTESP
